import Mathlib

/-!
Shallow embedding of `base/tracing/PRESUBMIT.py` (chromium-base), a presubmit
script with two stateless check functions:

* `CheckSqlModules` builds a command line for an external SQL-module
  validation tool and runs it through the host's command-execution
  primitive (`subprocess.call`); both exit-code branches return `[]`.
* `CheckPerfettoTestsTag` filters the change's affected files against two
  `^`-anchored path patterns and, when at least one file matches and the
  change description's `PERFETTO_TESTS` field is missing or falsy, emits a
  single informational result with a fixed instructional message.

The host review-tooling framework (the `input_api` / `output_api` objects)
is external to the repository; its capabilities consumed here are modelled
as explicit data: a structure of fields for the change context, a function
argument for the command-execution primitive, and an inductive type for the
result-construction primitives.
-/

namespace ChromiumBase.Tracing.Presubmit

/-- Result objects the host `output_api` can construct.  The script only
ever uses `notify` (Python `PresubmitNotifyResult`), the informational,
non-blocking kind; the other kinds exist in the host API and are included
so that "informational" is a real distinction in the model. -/
inductive Result where
  | notify (message : String)
  | promptWarning (message : String)
  | presubmitError (message : String)
deriving DecidableEq, Repr

/-- An affected file as enumerated by the host: a forward-slash-delimited
path relative to the repository root, and the file's (new) contents.  The
script only ever reads the path. -/
structure AffectedFile where
  local_path : String
  new_contents : List String
deriving DecidableEq, Repr

/-- The change metadata: the free-text description and the extracted
`PERFETTO_TESTS` tagged field (`none` when the tag is absent from the
description, `some s` when present with value `s`). -/
structure Change where
  description : String
  PERFETTO_TESTS : Option String
deriving DecidableEq, Repr

/-- The change context supplied by the host (`input_api`): the local path of
the directory holding the presubmit script, the interpreter executable, the
enumerable affected-file set, and the change metadata. -/
structure InputApi where
  PresubmitLocalPath : String
  python3_executable : String
  affected_files : List AffectedFile
  change : Change
deriving DecidableEq, Repr

/-- Python truthiness of a tag field value: `None` and the empty string are
falsy, every other string is truthy. -/
def truthy : Option String → Bool
  | none => false
  | some s => !s.isEmpty

/-- `input_api.os_path.join(a, p1, p2, ...)` for the relative components
used in this script: components are joined with the forward-slash
separator. -/
def os_path_join (a : String) (parts : List String) : String :=
  parts.foldl (fun acc p => acc ++ "/" ++ p) a

/-- Errors from the host's command-execution primitive when the subprocess
cannot be started (missing interpreter or tool path, etc.). -/
inductive SubprocessError where
  | launchFailure (msg : String)
deriving DecidableEq, Repr

/-- The command line `CheckSqlModules` constructs (PRESUBMIT.py lines
10-20): the interpreter executable, the tool path
`<PresubmitLocalPath>/../../third_party/perfetto/tools/check_sql_modules.py`,
and the fixed arguments `--stdlib-sources ./stdlib/chrome`. -/
def CheckSqlModules_cmd (input_api : InputApi) : List String :=
  let stdlib_dir := input_api.PresubmitLocalPath
  let chromium_src_dir := os_path_join stdlib_dir ["..", ".."]
  let tool := os_path_join chromium_src_dir
    ["third_party", "perfetto", "tools", "check_sql_modules.py"]
  [input_api.python3_executable, tool, "--stdlib-sources", "./stdlib/chrome"]

/-- `CheckSqlModules` (PRESUBMIT.py lines 9-25).  The effect of
`subprocess.call` is modelled by the host-supplied behaviour
`subprocess_call`, which either fails to launch (`Except.error`) or returns
the subprocess's exit code; the first component of the result is the trace
of commands spawned.  Mirroring the source, the truthy exit-code branch
(`if subprocess.call(cmd):`) and the fall-through branch both return `[]`;
a launch failure propagates uncaught. -/
def CheckSqlModules (input_api : InputApi)
    (subprocess_call : List String → Except SubprocessError Int) :
    List (List String) × Except SubprocessError (List Result) :=
  let cmd := CheckSqlModules_cmd input_api
  match subprocess_call cmd with
  | .error e => ([cmd], .error e)
  | .ok code => if code ≠ 0 then ([cmd], .ok []) else ([cmd], .ok [])

/-- `_STDLIB_PATHS` (PRESUBMIT.py lines 27-30).  The source holds the two
regular expressions `^base/tracing/stdlib/` and `^base/tracing/test/`;
since each is a `^`-anchored literal with no other metacharacters, matching
one of them is exactly a literal-prefix test, so the table is embedded as
the two literal prefixes. -/
def _STDLIB_PATHS : List String :=
  ["base/tracing/stdlib/", "base/tracing/test/"]

/-- Matching of a `^`-anchored literal regular-expression pattern against a
string: the pattern's characters are a prefix of the string's characters. -/
def matchStart (pat s : String) : Bool :=
  pat.toList.isPrefixOf s.toList

/-- Modelled from the spec: the host primitive `input_api.FilterSourceFile`
(not part of this repository) with a `files_to_check` argument performs
"prefix-anchored regular-expression matching on forward-slash-delimited
relative paths"; for the `^`-anchored literal patterns of `_STDLIB_PATHS`
this is a literal-prefix test on the file's local path. -/
def FilterSourceFile (files_to_check : List String)
    (affected_file : AffectedFile) : Bool :=
  files_to_check.any (fun pat => matchStart pat affected_file.local_path)

/-- `input_api.AffectedFiles(file_filter=...)`: the affected files passing
the supplied filter predicate. -/
def InputApi.AffectedFiles (input_api : InputApi)
    (file_filter : AffectedFile → Bool) : List AffectedFile :=
  input_api.affected_files.filter file_filter

/-- The fixed instructional message of `CheckPerfettoTestsTag`
(PRESUBMIT.py lines 46-51), the concatenation of the source's four string
literals. -/
def PERFETTO_TESTS_message : String :=
  "Must provide PERFETTO_TESTS=`autoninja -C out/Default perfetto_diff_tests && out/Default/bin/run_perfetto_diff_tests` line in CL description.\nPlease ensure the Perfetto diff tests pass before submitting."

/-- `CheckPerfettoTestsTag` (PRESUBMIT.py lines 32-53): if no affected file
passes the `_STDLIB_PATHS` filter, return `[]`; else if the change's
`PERFETTO_TESTS` field is truthy, return `[]`; else return one
informational result carrying the fixed message.  Python's
`any(...)` over the filtered file list is `List.any` with the constantly
true predicate. -/
def CheckPerfettoTestsTag (input_api : InputApi) : List Result :=
  let FileFilter := fun (affected_file : AffectedFile) =>
    FilterSourceFile _STDLIB_PATHS affected_file
  if !((input_api.AffectedFiles FileFilter).any (fun _ => true)) then
    []
  else if truthy input_api.change.PERFETTO_TESTS then
    []
  else
    [Result.notify PERFETTO_TESTS_message]

/-! ### Sample change contexts used by the witness theorems -/

/-- An affected file under the chrome stdlib tree. -/
def sampleFileStdlib : AffectedFile :=
  { local_path := "base/tracing/stdlib/foo.sql", new_contents := [] }

/-- An affected file outside both checked path trees. -/
def sampleFileUnrelated : AffectedFile :=
  { local_path := "unrelated/file.cc", new_contents := [] }

/-- A path that contains a checked pattern at a non-zero offset only. -/
def sampleFileOffset : AffectedFile :=
  { local_path := "foo/base/tracing/stdlib/x.sql", new_contents := [] }

/-- Context: one stdlib file affected, description without the tag. -/
def apiNoTag : InputApi :=
  { PresubmitLocalPath := "/src/base/tracing"
    python3_executable := "python3"
    affected_files := [sampleFileStdlib]
    change := { description := "Fixes bug.\n", PERFETTO_TESTS := none } }

/-- Context: one stdlib file affected, truthy `PERFETTO_TESTS` field. -/
def apiTagged : InputApi :=
  { PresubmitLocalPath := "/src/base/tracing"
    python3_executable := "python3"
    affected_files := [sampleFileStdlib]
    change := { description := "PERFETTO_TESTS=ran locally"
                PERFETTO_TESTS := some ("ran locally") } }

/-- Context: only files outside both checked path trees. -/
def apiUnrelated : InputApi :=
  { PresubmitLocalPath := "/src/base/tracing"
    python3_executable := "python3"
    affected_files := [sampleFileUnrelated, sampleFileOffset]
    change := { description := "Fixes bug.\n", PERFETTO_TESTS := none } }

/-- Same as `apiNoTag` except for the change description text. -/
def apiNoTagAltDescription : InputApi :=
  { PresubmitLocalPath := "/src/base/tracing"
    python3_executable := "python3"
    affected_files := [sampleFileStdlib]
    change := { description := "Different text.\n", PERFETTO_TESTS := none } }

/-- Subprocess behaviour: launches and exits with code 0. -/
def call_ok0 : List String → Except SubprocessError Int :=
  fun _ => Except.ok 0

/-- Subprocess behaviour: launches and exits with code 1. -/
def call_ok1 : List String → Except SubprocessError Int :=
  fun _ => Except.ok 1

/-- Subprocess behaviour: fails to launch. -/
def call_fail : List String → Except SubprocessError Int :=
  fun _ => Except.error (SubprocessError.launchFailure ("no such file"))

/-- The same change context with every affected file's contents replaced
according to `g`; the paths (and all other fields) are unchanged. -/
def withContents (api : InputApi) (g : AffectedFile → List String) : InputApi :=
  { api with
    affected_files := api.affected_files.map (fun f => { f with new_contents := g f }) }

/-! ### Helper lemmas -/

/-- If some affected file passes the stdlib filter, the guard of
`CheckPerfettoTestsTag` is true. -/
lemma affected_any_pos (api : InputApi)
    (hfile : ∃ f ∈ api.affected_files, FilterSourceFile _STDLIB_PATHS f = true) :
    ((api.affected_files.filter (fun f => FilterSourceFile _STDLIB_PATHS f)).any
      (fun _ => true)) = true := by
  obtain ⟨f, hf, hp⟩ := hfile
  simp only [List.any_eq_true, List.mem_filter]
  exact ⟨f, ⟨hf, hp⟩, trivial⟩

/-- If no affected file passes the stdlib filter, the guard of
`CheckPerfettoTestsTag` is false. -/
lemma affected_any_neg (api : InputApi)
    (h : ∀ f ∈ api.affected_files, FilterSourceFile _STDLIB_PATHS f = false) :
    ((api.affected_files.filter (fun f => FilterSourceFile _STDLIB_PATHS f)).any
      (fun _ => true)) = false := by
  have hnil : api.affected_files.filter (fun f => FilterSourceFile _STDLIB_PATHS f) = [] := by
    rw [List.filter_eq_nil_iff]
    intro f hf
    simp [h f hf]
  rw [hnil]
  rfl

/-- The spawn trace of `CheckSqlModules` is always the one constructed
command, whatever the subprocess does. -/
lemma check_sql_trace (api : InputApi)
    (call : List String → Except SubprocessError Int) :
    (CheckSqlModules api call).1 = [CheckSqlModules_cmd api] := by
  rcases hc : call (CheckSqlModules_cmd api) with e | code <;>
    simp [CheckSqlModules, hc]

/-! ### Claim theorems -/

/-- C1: whenever some affected file is under `base/tracing/stdlib/` or
`base/tracing/test/` and the change's `PERFETTO_TESTS` field is missing or
falsy, `CheckPerfettoTestsTag` returns exactly one informational
(`notify`) result whose message is the literal instructional text, which
mentions `autoninja -C out/Default perfetto_diff_tests`. -/
theorem C1_missing_tag_emits_one_notify (api : InputApi)
    (hfile : ∃ f ∈ api.affected_files, FilterSourceFile _STDLIB_PATHS f = true)
    (htag : truthy api.change.PERFETTO_TESTS = false) :
    CheckPerfettoTestsTag api = [Result.notify PERFETTO_TESTS_message] ∧
    ∃ x y, PERFETTO_TESTS_message =
      x ++ "autoninja -C out/Default perfetto_diff_tests" ++ y := by
  constructor
  · simp [CheckPerfettoTestsTag, InputApi.AffectedFiles,
      affected_any_pos api hfile, htag]
  · exact ⟨"Must provide PERFETTO_TESTS=`",
      " && out/Default/bin/run_perfetto_diff_tests` line in CL description.\nPlease ensure the Perfetto diff tests pass before submitting.",
      rfl⟩

/-- C1 witness: the scenario with one affected stdlib file and a tagless
description, evaluated concretely. -/
theorem C1_missing_tag_emits_one_notify_witness :
    CheckPerfettoTestsTag apiNoTag = [Result.notify PERFETTO_TESTS_message] ∧
    ∃ x y, PERFETTO_TESTS_message =
      x ++ "autoninja -C out/Default perfetto_diff_tests" ++ y :=
  C1_missing_tag_emits_one_notify apiNoTag
    ⟨sampleFileStdlib, by decide, by decide⟩ (by decide)

/-- C3: when no affected file passes the two fixed path patterns,
`CheckPerfettoTestsTag` returns `[]`, and the result stays `[]` whatever
change metadata (description and tag field) is substituted. -/
theorem C3_no_matching_file_empty (api : InputApi)
    (h : ∀ f ∈ api.affected_files, FilterSourceFile _STDLIB_PATHS f = false) :
    CheckPerfettoTestsTag api = [] ∧
    ∀ c : Change, CheckPerfettoTestsTag { api with change := c } = [] := by
  have hg := affected_any_neg api h
  constructor
  · simp [CheckPerfettoTestsTag, InputApi.AffectedFiles, hg]
  · intro c
    simp [CheckPerfettoTestsTag, InputApi.AffectedFiles]
    exact fun f hf => by simp [h f hf]

/-- C3 witness: only an unrelated file is affected; the result is empty and
independent of the change metadata. -/
theorem C3_no_matching_file_empty_witness :
    CheckPerfettoTestsTag apiUnrelated = [] ∧
    ∀ c : Change, CheckPerfettoTestsTag { apiUnrelated with change := c } = [] :=
  C3_no_matching_file_empty apiUnrelated (by decide)

/-- C4: when some affected file is under `base/tracing/stdlib/` or
`base/tracing/test/` and the `PERFETTO_TESTS` field is truthy,
`CheckPerfettoTestsTag` returns `[]`. -/
theorem C4_truthy_tag_empty (api : InputApi)
    (hfile : ∃ f ∈ api.affected_files, FilterSourceFile _STDLIB_PATHS f = true)
    (htag : truthy api.change.PERFETTO_TESTS = true) :
    CheckPerfettoTestsTag api = [] := by
  simp [CheckPerfettoTestsTag, InputApi.AffectedFiles,
    affected_any_pos api hfile, htag]

/-- C4 witness: the scenario with one affected stdlib file and
`PERFETTO_TESTS=ran locally` in the description. -/
theorem C4_truthy_tag_empty_witness :
    CheckPerfettoTestsTag apiTagged = [] :=
  C4_truthy_tag_empty apiTagged
    ⟨sampleFileStdlib, by decide, by decide⟩ (by decide)

/-- C5: matching is prefix-anchored: if every affected file's path lacks
both `base/tracing/stdlib/` and `base/tracing/test/` as a literal prefix
(even if it contains them at a non-zero offset), the result is `[]`, and
it stays `[]` when the files' contents are replaced arbitrarily. -/
theorem C5_prefix_anchored_content_independent (api : InputApi)
    (h : ∀ f ∈ api.affected_files, ∀ pat ∈ _STDLIB_PATHS,
      matchStart pat f.local_path = false) :
    CheckPerfettoTestsTag api = [] ∧
    ∀ g : AffectedFile → List String,
      CheckPerfettoTestsTag (withContents api g) = [] := by
  have hfilt : ∀ f ∈ api.affected_files, FilterSourceFile _STDLIB_PATHS f = false := by
    intro f hf
    simp only [FilterSourceFile, List.any_eq_false]
    intro pat hpat
    simp [h f hf pat hpat]
  constructor
  · simp [CheckPerfettoTestsTag, InputApi.AffectedFiles,
      affected_any_neg api hfilt]
  · intro g
    simp only [withContents, CheckPerfettoTestsTag, InputApi.AffectedFiles]
    have hfilt2 : ∀ f ∈ api.affected_files.map (fun f => { f with new_contents := g f }),
        FilterSourceFile _STDLIB_PATHS f = false := by
      intro f hf
      obtain ⟨f0, hf0, rfl⟩ := List.mem_map.mp hf
      exact hfilt f0 hf0
    have hnil : (api.affected_files.map (fun f => { f with new_contents := g f })).filter
        (fun f => FilterSourceFile _STDLIB_PATHS f) = [] := by
      rw [List.filter_eq_nil_iff]
      intro f hf
      simp [hfilt2 f hf]
    simp [hnil]

/-- C5 witness: a path that contains `base/tracing/stdlib/` only at a
non-zero offset does not trigger the check, for any file contents. -/
theorem C5_prefix_anchored_content_independent_witness :
    CheckPerfettoTestsTag apiUnrelated = [] ∧
    ∀ g : AffectedFile → List String,
      CheckPerfettoTestsTag (withContents apiUnrelated g) = [] :=
  C5_prefix_anchored_content_independent apiUnrelated (by decide)

/-- C2: whenever the subprocess can be launched, `CheckSqlModules` reports
an empty result list, for every exit code — the zero and non-zero branches
agree. -/
theorem C2_sql_modules_result_always_empty (api : InputApi)
    (call : List String → Except SubprocessError Int) (code : Int)
    (h : call (CheckSqlModules_cmd api) = Except.ok code) :
    (CheckSqlModules api call).2 = Except.ok [] := by
  simp only [CheckSqlModules, h]
  by_cases h0 : code ≠ 0 <;> simp [h0]

/-- C2 witness: a subprocess exiting with the non-zero code 1 still yields
the empty result list. -/
theorem C2_sql_modules_result_always_empty_witness :
    (CheckSqlModules apiNoTag call_ok1).2 = Except.ok [] :=
  C2_sql_modules_result_always_empty apiNoTag call_ok1 1 rfl

/-- C6: the command `CheckSqlModules` spawns is exactly the interpreter
executable, the tool path obtained by joining the presubmit-local path with
`..`, `..`, `third_party`, `perfetto`, `tools`, `check_sql_modules.py`, and
the fixed arguments `--stdlib-sources ./stdlib/chrome`. -/
theorem C6_sql_modules_command_exact (api : InputApi)
    (call : List String → Except SubprocessError Int) :
    (CheckSqlModules api call).1 =
      [[api.python3_executable,
        api.PresubmitLocalPath ++ "/../../third_party/perfetto/tools/check_sql_modules.py",
        "--stdlib-sources", "./stdlib/chrome"]] := by
  rw [check_sql_trace]
  have htool : os_path_join (os_path_join api.PresubmitLocalPath ["..", ".."])
      ["third_party", "perfetto", "tools", "check_sql_modules.py"] =
      api.PresubmitLocalPath ++ "/../../third_party/perfetto/tools/check_sql_modules.py" := by
    simp only [os_path_join, List.foldl, String.append_assoc]
    congr 1
  simp only [CheckSqlModules_cmd, htool]

/-- C7: each check's reported result is either the empty sequence or a
sequence holding exactly one informational (`notify`) message object — in
particular its length never exceeds one.  This covers the tag check's
result and any successfully reported SQL-module result list. -/
theorem C7_empty_or_one_notify (api : InputApi)
    (call : List String → Except SubprocessError Int) :
    ((CheckPerfettoTestsTag api).length ≤ 1 ∧
      (CheckPerfettoTestsTag api = [] ∨
        ∃ m, CheckPerfettoTestsTag api = [Result.notify m])) ∧
    ∀ res : List Result, (CheckSqlModules api call).2 = Except.ok res →
      res.length ≤ 1 ∧ (res = [] ∨ ∃ m, res = [Result.notify m]) := by
  constructor
  · constructor
    · simp only [CheckPerfettoTestsTag]
      split
      · simp
      · split <;> simp
    · simp only [CheckPerfettoTestsTag]
      split
      · exact Or.inl rfl
      · split
        · exact Or.inl rfl
        · exact Or.inr ⟨PERFETTO_TESTS_message, rfl⟩
  · intro res h
    rcases hc : call (CheckSqlModules_cmd api) with e | code
    · simp [CheckSqlModules, hc] at h
    · simp only [CheckSqlModules, hc] at h
      by_cases h0 : code ≠ 0 <;> simp [h0] at h <;> simp [h]

/-- C7 witness: concrete instances of both parts, with the SQL-module
hypothesis discharged by evaluation. -/
theorem C7_empty_or_one_notify_witness :
    ((CheckPerfettoTestsTag apiNoTag).length ≤ 1 ∧
      (CheckPerfettoTestsTag apiNoTag = [] ∨
        ∃ m, CheckPerfettoTestsTag apiNoTag = [Result.notify m])) ∧
    (([] : List Result).length ≤ 1 ∧
      (([] : List Result) = [] ∨ ∃ m, ([] : List Result) = [Result.notify m])) :=
  ⟨(C7_empty_or_one_notify apiNoTag call_ok0).1,
   (C7_empty_or_one_notify apiNoTag call_ok0).2 [] rfl⟩

/-- C8: `CheckSqlModules` performs no local recovery: its reported outcome
is the launch failure `e` exactly when the command-execution primitive
fails with `e` on the constructed command. -/
theorem C8_launch_failure_propagates (api : InputApi)
    (call : List String → Except SubprocessError Int) (e : SubprocessError) :
    (CheckSqlModules api call).2 = Except.error e ↔
      call (CheckSqlModules_cmd api) = Except.error e := by
  rcases hc : call (CheckSqlModules_cmd api) with e' | code
  · simp [CheckSqlModules, hc]
  · simp only [CheckSqlModules, hc]
    by_cases h0 : code ≠ 0 <;> simp [h0]

/-- C9: `CheckSqlModules` spawns its subprocess unconditionally: the spawn
trace is always exactly the one constructed command, and the whole outcome
is unchanged under arbitrary replacement of the affected-file set and the
change metadata — in particular the subprocess runs when no affected file
is under `base/tracing/` at all. -/
theorem C9_spawn_unconditional (api : InputApi)
    (call : List String → Except SubprocessError Int)
    (files : List AffectedFile) (c : Change) :
    (CheckSqlModules api call).1 = [CheckSqlModules_cmd api] ∧
    CheckSqlModules { api with affected_files := files, change := c } call =
      CheckSqlModules api call :=
  ⟨check_sql_trace api call, rfl⟩

/-- C10: both checks are deterministic functions of the inputs they read:
equal affected-file membership and equal `PERFETTO_TESTS` values give equal
tag-check results, and equal paths with the same subprocess behaviour give
equal SQL-module-check outcomes. -/
theorem C10_checks_deterministic (api₁ api₂ : InputApi)
    (call : List String → Except SubprocessError Int)
    (hfiles : ∀ f, f ∈ api₁.affected_files ↔ f ∈ api₂.affected_files)
    (htag : api₁.change.PERFETTO_TESTS = api₂.change.PERFETTO_TESTS)
    (hpath : api₁.PresubmitLocalPath = api₂.PresubmitLocalPath)
    (hexe : api₁.python3_executable = api₂.python3_executable) :
    CheckPerfettoTestsTag api₁ = CheckPerfettoTestsTag api₂ ∧
    CheckSqlModules api₁ call = CheckSqlModules api₂ call := by
  have hcmd : CheckSqlModules_cmd api₁ = CheckSqlModules_cmd api₂ := by
    simp only [CheckSqlModules_cmd, hpath, hexe]
  constructor
  · have hany : (api₁.affected_files.filter (fun f => FilterSourceFile _STDLIB_PATHS f)).any
        (fun _ => true) =
        (api₂.affected_files.filter (fun f => FilterSourceFile _STDLIB_PATHS f)).any
        (fun _ => true) := by
      have hiff : ((api₁.affected_files.filter
            (fun f => FilterSourceFile _STDLIB_PATHS f)).any (fun _ => true) = true) ↔
          ((api₂.affected_files.filter
            (fun f => FilterSourceFile _STDLIB_PATHS f)).any (fun _ => true) = true) := by
        simp only [List.any_eq_true, List.mem_filter]
        constructor
        · rintro ⟨f, ⟨hf, hp⟩, -⟩
          exact ⟨f, ⟨(hfiles f).mp hf, hp⟩, trivial⟩
        · rintro ⟨f, ⟨hf, hp⟩, -⟩
          exact ⟨f, ⟨(hfiles f).mpr hf, hp⟩, trivial⟩
      cases ha : (api₁.affected_files.filter
          (fun f => FilterSourceFile _STDLIB_PATHS f)).any (fun _ => true) <;>
        cases hb : (api₂.affected_files.filter
          (fun f => FilterSourceFile _STDLIB_PATHS f)).any (fun _ => true) <;>
        simp_all
    simp only [CheckPerfettoTestsTag, InputApi.AffectedFiles, hany, htag]
  · simp only [CheckSqlModules, hcmd]

/-- C10 witness: two contexts identical except for the description text
yield the same results for both checks. -/
theorem C10_checks_deterministic_witness :
    CheckPerfettoTestsTag apiNoTag = CheckPerfettoTestsTag apiNoTagAltDescription ∧
    CheckSqlModules apiNoTag call_ok0 =
      CheckSqlModules apiNoTagAltDescription call_ok0 :=
  C10_checks_deterministic apiNoTag apiNoTagAltDescription call_ok0
    (fun _ => Iff.rfl) rfl rfl rfl

end ChromiumBase.Tracing.Presubmit
